import Mathlib

set_option maxRecDepth 8000

/-!
Formal model of the Wyckoff 1-minute reader (src/main.py, src/sheet_manager.py,
src/add_stock.py): the multi-provider analysis orchestrator, the Gemini
retry/backoff engine, the market-data fetch and truncation logic, the batch
entry point, and the spreadsheet-store glue.

Modelling conventions:
- Machine floats of the Python source are modelled as exact rationals (ℚ);
  Python `int(x)` truncation toward zero is `pyInt`.
- HTTP traffic is modelled by injecting, per attempt, either a structured
  response (`GemResp`) or a raised exception; the fields of `GemResp` carry
  the classification inputs the source reads off the response (status code,
  body text, parsed Retry-After header, the "retry in Ns" figures matched by
  the source's regular expressions, the parsed JSON error message, and the
  result of the 200-body candidate/parts/text extraction).
- Side effects that the claims observe (HTTP attempt count, sleeps performed,
  providers invoked, files recorded in the push list) are returned as explicit
  values; prints are not modelled.
- Python strings are Lean `String`s; `str.isdigit` is modelled as ASCII
  `Char.isDigit` and `str.lower` as `Char.toLower`, which agree on the ASCII
  inputs the claims are about.
-/

/-! ## Basic Python-style string and number helpers -/

/-- Python `s[:n]`. -/
def pyTake (n : Nat) (s : String) : String := ⟨s.data.take n⟩

/-- Python `s.lower()` (ASCII). -/
def lowerStr (s : String) : String := ⟨s.data.map Char.toLower⟩

/-- Occurrence test `pat in hay` on character lists. -/
def listHasSub : List Char → List Char → Bool
  | [], pat => pat.isEmpty
  | c :: t, pat => pat.isPrefixOf (c :: t) || listHasSub t pat

/-- Python substring test `pat in hay`. -/
def containsSub (hay pat : String) : Bool := listHasSub hay.data pat.data

/-- Python `int(q)` for a rational: truncation toward zero. -/
def pyInt (q : ℚ) : Int := Int.tdiv q.num (q.den : Int)

/-- Python `s.zfill(w)` for a sign-free string: left-pad with '0' to width `w`. -/
def zfill (w : Nat) (s : String) : String :=
  if s.length < w then ⟨List.replicate (w - s.length) '0'⟩ ++ s else s

/-- The identifier normalization `''.join(filter(str.isdigit, str(x))).zfill(6)`
used verbatim in `sheet_manager._parse_records`, `sheet_manager.add_or_update_stock`,
`sheet_manager.remove_stock`, `main.process_one_stock` and
`main.fetch_stock_data_dynamic`. -/
def normalizeCode (s : String) : String := zfill 6 ⟨s.data.filter Char.isDigit⟩

/-- Number of positions of `s` at which `pat` occurs (substring occurrence count). -/
def countOcc (pat : List Char) : List Char → Nat
  | [] => 0
  | x :: t => (if pat.isPrefixOf (x :: t) then 1 else 0) + countOcc pat t

/-- Substring occurrence count at `String` level. -/
def countOccS (pat s : String) : Nat := countOcc pat.data s.data

/-- Number of occurrences of the character `c` in the list. -/
def charCount (c : Char) : List Char → Nat
  | [] => 0
  | x :: t => (if x = c then 1 else 0) + charCount c t

/-- Character occurrence count at `String` level. -/
def charCountS (c : Char) (s : String) : Nat := charCount c s.data

/-- The string mentions none of the capital initials 'D', 'G', 'O' of the three
provider identifiers "DeepSeek", "Gemini", "OpenAI". Used to state when the
aggregated failure text of `ai_analyze` contains each identifier exactly once. -/
def noProviderInitial (s : String) : Prop :=
  charCountS 'D' s = 0 ∧ charCountS 'G' s = 0 ∧ charCountS 'O' s = 0

instance (s : String) : Decidable (noProviderInitial s) := by
  unfold noProviderInitial; infer_instance

/-! ## Fallback orchestrator (src/main.py, `ai_analyze`)

The source tries DeepSeek first, then Gemini, then OpenAI, returning the first
successful text. Each provider call is modelled by its outcome: `.ok text` for
a normal return, `.error e` for a raised exception whose `str()` is `e`. Gemini
distinguishes three exception classes. The second component of the result is
the list of providers whose call function was entered, in order. -/

inductive Provider
  | deepseek
  | gemini
  | openai
deriving DecidableEq, Repr

/-- The three exception classes a `call_gemini_http` call can raise into
`ai_analyze`: `GeminiQuotaExceeded`, `GeminiRateLimited`, and any other
`Exception`. The payload is the exception's string rendering. -/
inductive GeminiError
  | quotaExceeded (msg : String)
  | rateLimited (msg : String)
  | other (msg : String)
deriving DecidableEq, Repr

/-- String rendering of the Gemini exception, as interpolated by the f-strings
in `ai_analyze`. -/
def GeminiError.msg : GeminiError → String
  | .quotaExceeded m => m
  | .rateLimited m => m
  | .other m => m

/-- The aggregated failure f-strings of `ai_analyze` (src/main.py lines
333, 339, 345), one per Gemini exception class. -/
def failText (e1 : String) (ge : GeminiError) (e2 : String) : String :=
  match ge with
  | .quotaExceeded q =>
    "Analysis Failed. DeepSeek Error: " ++ e1 ++ ". Gemini Quota Error: " ++ q
      ++ ". OpenAI Error: " ++ e2
  | .rateLimited r =>
    "Analysis Failed. DeepSeek Error: " ++ e1 ++ ". Gemini RateLimit Error: " ++ r
      ++ ". OpenAI Error: " ++ e2
  | .other g =>
    "Analysis Failed. DeepSeek Error: " ++ e1 ++ ". Gemini Error: " ++ g
      ++ ". OpenAI Error: " ++ e2

/-- The label part of the aggregated failure text that carries the Gemini
provider identifier, per exception class. -/
def geminiLabel : GeminiError → String
  | .quotaExceeded _ => ". Gemini Quota Error: "
  | .rateLimited _ => ". Gemini RateLimit Error: "
  | .other _ => ". Gemini Error: "

/-- `ai_analyze` (src/main.py lines 315-345). `prompt` is the result of
`get_prompt_content` (`none` models Python `None`; the empty string is also
falsy in the `if not prompt` test). The providers' outcomes are injected.
Returns the analysis text and the ordered list of providers invoked. -/
def ai_analyze (prompt : Option String) (deepseek : Except String String)
    (gemini : Except GeminiError String) (openai : Except String String) :
    String × List Provider :=
  match prompt with
  | none => ("Error: No Prompt", [])
  | some p =>
    if p = "" then ("Error: No Prompt", [])
    else
      match deepseek with
      | .ok t => (t, [.deepseek])
      | .error e1 =>
        match gemini with
        | .ok t => (t, [.deepseek, .gemini])
        | .error ge =>
          match openai with
          | .ok t => (t, [.deepseek, .gemini, .openai])
          | .error e2 => (failText e1 ge e2, [.deepseek, .gemini, .openai])

/-! ## Gemini retry/backoff engine (src/main.py, `call_gemini_http`) -/

instance : DecidableEq (Except String String) := fun x y =>
  match x, y with
  | .ok a, .ok b => if h : a = b then isTrue (by rw [h]) else isFalse (by simp [h])
  | .error a, .error b => if h : a = b then isTrue (by rw [h]) else isFalse (by simp [h])
  | .ok _, .error _ => isFalse (by simp)
  | .error _, .ok _ => isFalse (by simp)

/-- One HTTP response as the source inspects it.
`retryAfterQ` is the numeric value of the `Retry-After` header when present and
parsable (`none` covers both an absent header and an unparsable one, which the
source treats identically via its bare `except`). `retryInTextQ` /
`retryInJsonQ` are the numbers matched by the source's `retry in N s` regular
expression in `resp.text` / in the parsed JSON `error.message`. `jsonErrMsg` is
the parsed JSON `error.message` (`none` when the body fails to parse as JSON).
`extract` is the outcome of the 200-body extraction block (candidates → parts →
text): `.ok t` for a nonempty text, `.error m` for the `ValueError` message
raised on a missing/empty field. -/
structure GemResp where
  status : Nat
  text : String
  retryAfterQ : Option ℚ
  retryInTextQ : Option ℚ
  retryInJsonQ : Option ℚ
  jsonErrMsg : Option String
  extract : Except String String
deriving DecidableEq

/-- Python `max` on two integers. -/
def pyMaxI (a b : Int) : Int := if a ≤ b then b else a

/-- `_extract_retry_seconds` (src/main.py lines 27-46): Retry-After header
first, then the regex over the body text, then the regex over the JSON error
message; each hit is `max(1, int(float(v)))`; no hit yields 0. -/
def _extract_retry_seconds (r : GemResp) : Int :=
  match r.retryAfterQ with
  | some v => pyMaxI 1 (pyInt v)
  | none =>
    match r.retryInTextQ with
    | some v => pyMaxI 1 (pyInt v)
    | none =>
      match r.retryInJsonQ with
      | some v => pyMaxI 1 (pyInt v)
      | none => 0

/-- `_is_quota_exhausted` (src/main.py lines 47-60): substring heuristics over
the lowercased body text, then over the lowercased JSON error message. -/
def _is_quota_exhausted (r : GemResp) : Bool :=
  let text := lowerStr r.text
  if containsSub text "quota exceeded" || containsSub text "exceeded your current quota" then
    true
  else if containsSub text "free_tier" && containsSub text "limit" then
    true
  else
    match r.jsonErrMsg with
    | none => false
    | some m =>
      let msg := lowerStr m
      containsSub msg "quota exceeded" || containsSub msg "exceeded your current quota"

/-- What one iteration of the retry loop observes: either an HTTP response or
an exception raised by `session.post` (timeout, connection error, ...). -/
inductive AttemptEv
  | resp (r : GemResp)
  | exn (msg : String)
deriving DecidableEq

/-- How `call_gemini_http` terminates, as seen by its caller:
normal return, `GeminiQuotaExceeded`, `GeminiRateLimited`, or a generic
`Exception`/`ValueError` (all carrying their message). -/
inductive GemOutcome
  | ok (text : String)
  | quotaExceeded (msg : String)
  | rateLimited (msg : String)
  | failed (msg : String)
deriving DecidableEq, Repr

/-- The exponential backoff with jitter of src/main.py lines 106, 113, 126:
`int(base_sleep * (2 ** (attempt - 1)) + random.random() * 2)`, with the
attempt's jitter draw `jit ∈ [0, 2)` injected. -/
def backoffDelay (base : ℚ) (jit : ℚ) (attempt : Nat) : Int :=
  pyInt (base * 2 ^ (attempt - 1) + jit)

/-- The retry loop of `call_gemini_http` (src/main.py lines 85-129).
`fuel` is the number of loop iterations still allowed (initially
`max_retries`; `fuel = 0` inside an iteration's body means
`attempt == max_retries`), `k` is the 1-based attempt number, `sleeps`
accumulates the seconds slept in order, `lastErr` is the `last_err` variable.
Returns (outcome, number of HTTP attempts made, sleeps performed). -/
def gemAux (base : ℚ) (ev : Nat → AttemptEv) (jit : Nat → ℚ) :
    Nat → Nat → List Int → Option String → GemOutcome × Nat × List Int
  | 0, k, sleeps, lastErr =>
    (.failed (lastErr.getD "Gemini unknown failure"), k - 1, sleeps)
  | fuel + 1, k, sleeps, lastErr =>
    match ev k with
    | .exn m =>
      if fuel = 0 then (.failed m, k, sleeps)
      else gemAux base ev jit fuel (k + 1) (sleeps ++ [backoffDelay base (jit k) k]) (some m)
    | .resp r =>
      if r.status = 200 then
        match r.extract with
        | .ok t => (.ok t, k, sleeps)
        | .error m =>
          if fuel = 0 then (.failed m, k, sleeps)
          else gemAux base ev jit fuel (k + 1) (sleeps ++ [backoffDelay base (jit k) k]) (some m)
      else if r.status = 429 then
        if _is_quota_exhausted r then (.quotaExceeded (pyTake 1200 r.text), k, sleeps)
        else
          let retry0 := _extract_retry_seconds r
          let retry_s := if retry0 ≤ 0 then backoffDelay base (jit k) k else retry0
          if fuel = 0 then (.rateLimited (pyTake 1200 r.text), k, sleeps)
          else gemAux base ev jit fuel (k + 1) (sleeps ++ [retry_s]) lastErr
      else if r.status = 503 then
        if fuel = 0 then (.failed ("Gemini 503 final: " ++ pyTake 1200 r.text), k, sleeps)
        else gemAux base ev jit fuel (k + 1) (sleeps ++ [backoffDelay base (jit k) k]) lastErr
      else
        let m := "Gemini HTTP " ++ toString r.status ++ ": " ++ pyTake 1200 r.text
        if fuel = 0 then (.failed m, k, sleeps)
        else gemAux base ev jit fuel (k + 1) (sleeps ++ [backoffDelay base (jit k) k]) (some m)

/-- `call_gemini_http` (src/main.py lines 61-129) with `max_retries` and
`base_sleep` as the `GEMINI_MAX_RETRIES` / `GEMINI_BASE_SLEEP` configuration
(defaults 8 and 2.5) and the per-attempt HTTP outcomes and jitter draws
injected. -/
def call_gemini_http (max_retries : Nat) (base_sleep : ℚ)
    (ev : Nat → AttemptEv) (jit : Nat → ℚ) : GemOutcome × Nat × List Int :=
  gemAux base_sleep ev jit max_retries 1 [] none

/-- The delay actually slept before the retry that follows a transient
(non-quota) 429 on attempt `k`: the extracted server hint when it is positive
(it is then already clamped to ≥ 1 by `_extract_retry_seconds`), otherwise the
truncated exponential backoff — which is NOT clamped to a minimum. -/
def transientDelay (base : ℚ) (jit : ℚ) (attempt : Nat) (r : GemResp) : Int :=
  if _extract_retry_seconds r ≤ 0 then backoffDelay base jit attempt
  else _extract_retry_seconds r

/-- The response classes on which the retry loop sleeps and retries: a 429
not classified quota-exhausted (transient throttle), or a 503 (overload). -/
def retryableResp (r : GemResp) : Prop :=
  (r.status = 429 ∧ _is_quota_exhausted r = false) ∨ r.status = 503

/-- The delay actually slept before the retry that follows a retryable failure
on attempt `k`: for a transient 429 the `transientDelay` (server hint when
positive, else unclamped backoff); for a 503 always the plain backoff — the
503 branch (src/main.py lines 112-118) never calls `_extract_retry_seconds`,
so a server retry hint on an overload response is ignored. -/
def retryDelay (base : ℚ) (jit : ℚ) (attempt : Nat) (r : GemResp) : Int :=
  if r.status = 429 then transientDelay base jit attempt r
  else backoffDelay base jit attempt

/-! ## Market data fetch (src/main.py, `fetch_stock_data_dynamic`) -/

/-- One OHLCV bar after the source's rename/astype step. `date` is a day/time
ordinal (the claims only need date arithmetic in whole days). -/
structure Bar where
  date : Int
  «open» : ℚ
  high : ℚ
  low : ℚ
  close : ℚ
  volume : ℚ
deriving DecidableEq, Repr

/-- The zero-open repair applied when some bar has `open == 0`
(src/main.py lines 206-209): `open.replace(0, nan).fillna(close.shift(1))
.fillna(close)`. `prevClose` is the original close of the previous row. -/
def fixOpensGo : Option ℚ → List Bar → List Bar
  | _, [] => []
  | prevClose, b :: rest =>
    let o := if b.«open» = 0 then
        (match prevClose with
         | some c => c
         | none => b.close)
      else b.«open»
    { b with «open» := o } :: fixOpensGo (some b.close) rest

/-- The guarded zero-open repair: applied only when `(df["open"] == 0).any()`. -/
def fixOpens (df : List Bar) : List Bar :=
  if df.any (fun b => b.«open» = 0) then fixOpensGo none df else df

/-- Python `df.tail(n)`: the last `n` rows. -/
def pyTail (n : Nat) (l : List Bar) : List Bar := l.drop (l.length - n)

/-- Observable outcome of `fetch_stock_data_dynamic`: the `start_date`
argument passed to the AkShare query (the query's end is implicitly "now" —
the source passes no end date), the resulting bar series, and the period
string. -/
structure FetchOut where
  startRequested : Int
  df : List Bar
  period : String
deriving DecidableEq, Repr

/-- `fetch_stock_data_dynamic` (src/main.py lines 188-212). `now` is the
current day ordinal; `src sym start` models
`ak.stock_zh_a_hist_min_em(symbol=sym, period="5", start_date=start,
adjust="qfq")`, with `.error` for a raised AkShare exception. The
`buy_date_str` parameter is carried exactly as in the source, whose body
never reads it. The pandas rename/astype steps are identities on this
typed representation. -/
def fetch_stock_data_dynamic (symbol : String) (buy_date_str : Option String)
    (now : Int) (src : String → Int → Except String (List Bar)) : FetchOut :=
  let symbol_code := normalizeCode symbol
  let start_date_em := now - 40
  match src symbol_code start_date_em with
  | .error _ => ⟨start_date_em, [], "5m"⟩
  | .ok df =>
    if df = [] then ⟨start_date_em, [], "5m"⟩
    else
      let df1 := fixOpens df
      let df2 := if 500 < df1.length then pyTail 500 df1 else df1
      ⟨start_date_em, df2, "5m"⟩

/-! ## Batch pipeline (src/main.py, `process_one_stock` and `main`) -/

/-- The injected environment of one `process_one_stock` call: the position's
date field, the clock, the timestamp string used in artifact paths, the
market-data source, and whether `generate_pdf_report` succeeds. The chart/CSV
writes and the analysis text only feed the PDF's content, which the claims do
not observe. -/
structure PosEnv where
  posDate : Option String
  now : Int
  ts : String
  src : String → Int → Except String (List Bar)
  pdfOk : Bool

/-- `process_one_stock` (src/main.py lines 387-411): normalize the symbol,
fetch; on an empty frame skip (return `None`); otherwise build the PDF path
and return it if the PDF was produced. -/
def process_one_stock (symbol : String) (env : PosEnv) : Option String :=
  let clean_symbol := normalizeCode symbol
  let data_res := fetch_stock_data_dynamic clean_symbol env.posDate env.now env.src
  if data_res.df = [] then none
  else
    let pdf_path := "reports/" ++ clean_symbol ++ "_report_" ++ data_res.period
      ++ "_" ++ env.ts ++ ".pdf"
    if env.pdfOk then some pdf_path else none

/-- What happens when `main`'s loop body runs one position: the
`process_one_stock` call either completes (driven by its environment) or
raises, in which case `main`'s `except` swallows the exception. -/
inductive StepEvent
  | runs (env : PosEnv)
  | raises (msg : String)

/-- The `pdf_path` contribution of one loop iteration of `main`. -/
def posResult (sym : String) (ev : StepEvent) : Option String :=
  match ev with
  | .raises _ => none
  | .runs env => process_one_stock sym env

/-- The loop of `main` (src/main.py lines 424-434): processes every item in
order, collecting the generated PDF paths; a raised exception in one
iteration only skips that iteration's append. Returns (symbols processed in
order, PDFs generated in order). -/
def mainLoop : List (String × StepEvent) → List String × List String
  | [] => ([], [])
  | (sym, ev) :: rest =>
    let r := posResult sym ev
    let (ps, pdfs) := mainLoop rest
    (sym :: ps, (match r with | some p => [p] | none => []) ++ pdfs)

/-- Observable outcome of `main` (src/main.py lines 412-442): the positions
processed, the PDFs generated, and the contents of `push_list.txt` — which is
written only when `generated_pdfs` is nonempty (`none` = no file written). -/
structure MainOut where
  processed : List String
  generated : List String
  pushList : Option (List String)

/-- `main` (src/main.py lines 412-442), given the task list read from the
sheet. -/
def mainBatch (items : List (String × StepEvent)) : MainOut :=
  let r := mainLoop items
  ⟨r.1, r.2, if r.2 = [] then none else some r.2⟩

/-! ## Spreadsheet store (src/sheet_manager.py, src/add_stock.py) -/

/-- One sheet record as `gspread.get_all_records` returns it: an ordered
association of column header to cell value (values modelled as their `str()`
rendering, which is all the source uses). -/
abbrev SheetRecord := List (String × String)

/-- The per-stock info dictionary built by `_parse_records`. -/
structure StockInfo where
  date : String
  qty : String
  price : String
deriving DecidableEq, Repr

/-- Python `row.get(k, '')`. -/
def rowGet (row : SheetRecord) (k : String) : String :=
  match row.find? (fun kv => kv.1 = k) with
  | some kv => kv.2
  | none => ""

/-- Python dict insertion `stocks[code] = v`: overwrite in place when the key
exists, else append. -/
def dictInsert (l : List (String × StockInfo)) (k : String) (v : StockInfo) :
    List (String × StockInfo) :=
  if l.any (fun p => p.1 = k) then
    l.map (fun p => if p.1 = k then (k, v) else p)
  else l ++ [(k, v)]

/-- One iteration of the `_parse_records` loop (src/sheet_manager.py lines
80-97): fuzzy-match a 'Code' column, normalize to a 6-digit code, skip
empty/"000000" codes, read date/qty/price with defaults. `nowStr` models
`datetime.now().strftime("%Y-%m-%d")`. -/
def parseStep (nowStr : String) (stocks : List (String × StockInfo))
    (row : SheetRecord) : List (String × StockInfo) :=
  match row.find? (fun kv => containsSub kv.1 "Code") with
  | none => stocks
  | some kv =>
    let code := normalizeCode kv.2
    if code = "" ∨ code = "000000" then stocks
    else
      let date := let d := (rowGet row "BuyDate").trim; if d = "" then nowStr else d
      let qty := let q := (rowGet row "Qty").trim; if q = "" then "0" else q
      let price := let p := (rowGet row "Price").trim; if p = "" then "0.0" else p
      dictInsert stocks code ⟨date, qty, price⟩

/-- `_parse_records` (src/sheet_manager.py lines 77-99). -/
def _parse_records (nowStr : String) (records : List SheetRecord) :
    List (String × StockInfo) :=
  records.foldl (parseStep nowStr) []

/-- `get_all_stocks` (src/sheet_manager.py lines 65-75):
`sheet.get_all_records()` either raises (`.error`) or returns the records;
any exception yields `{}`, as does an empty record list. -/
def get_all_stocks (nowStr : String) (readRes : Except String (List SheetRecord)) :
    List (String × StockInfo) :=
  match readRes with
  | .error _ => []
  | .ok records => if records = [] then [] else _parse_records nowStr records

/-- `sheet.find(code)` of gspread, as used by `add_or_update_stock`: index of
the first row containing the value in some cell. -/
def findCellRow (sheet : List (List String)) (v : String) : Option Nat :=
  sheet.findIdx? (fun row => row.contains v)

/-- `add_or_update_stock(code, date=None, qty=None, price=None)`
(src/sheet_manager.py lines 101-117). Cell values are modelled as strings;
the falsy-defaults `date or now`, `qty or 0`, `price or 0.0` use the string
renderings "0" and "0.0". Columns are 1-based in gspread: column 2 = date,
column 3 = qty, column 4 = price. -/
def add_or_update_stock (nowStr : String) (sheet : List (List String))
    (code : String) (date qty price : String) : List (List String) × String :=
  let c := normalizeCode code
  let d := if date = "" then nowStr else date
  let q := if qty = "" then "0" else qty
  let p := if price = "" then "0.0" else price
  match findCellRow sheet c with
  | some i =>
    (sheet.set i (((((sheet.get? i).getD []).set 1 d).set 2 q).set 3 p), "Updated")
  | none => (sheet ++ [[c, d, q, p]], "Added")

/-- The parse result of `add_stock.parse_command`. -/
structure ParsedCmd where
  intent : String
  code : String
  date : String
  price : String
  qty : String
deriving DecidableEq, Repr

/-- The add/update dispatch of `add_stock.main` (src/add_stock.py lines
106-109): `sm.add_or_update_stock(parsed["code"], parsed["date"],
parsed["price"], parsed["qty"])` — four positional arguments against the
signature `(code, date=None, qty=None, price=None)`. -/
def addStockDispatch (nowStr : String) (sheet : List (List String))
    (parsed : ParsedCmd) : List (List String) × String :=
  add_or_update_stock nowStr sheet parsed.code parsed.date parsed.price parsed.qty

/-! ## General lemmas about the string-counting helpers -/

theorem strData_append (s t : String) : (s ++ t).data = s.data ++ t.data := rfl

theorem charCount_append (c : Char) (a b : List Char) :
    charCount c (a ++ b) = charCount c a + charCount c b := by
  induction a with
  | nil => simp [charCount]
  | cons x t ih => simp [charCount, ih]; omega

theorem isPrefixOf_append_self (l b : List Char) : l.isPrefixOf (l ++ b) = true := by
  induction l with
  | nil => simp
  | cons x t ih => simp [List.isPrefixOf_cons₂, ih]

theorem isPrefixOf_extend (pat : List Char) :
    ∀ l b : List Char, pat.isPrefixOf l = true → pat.isPrefixOf (l ++ b) = true := by
  induction pat with
  | nil => intro l b _; simp
  | cons c p ih =>
    intro l b h
    cases l with
    | nil => simp at h
    | cons x t =>
      rw [List.cons_append, List.isPrefixOf_cons₂]
      rw [List.isPrefixOf_cons₂] at h
      rcases (Bool.and_eq_true _ _).mp h with ⟨hcx, hpt⟩
      rw [hcx, ih t b hpt]
      rfl

theorem countOcc_le_left (pat : List Char) (a b : List Char) :
    countOcc pat a ≤ countOcc pat (a ++ b) := by
  induction a with
  | nil => simp [countOcc]
  | cons x t ih =>
    have h1 : countOcc pat (x :: t) = (if pat.isPrefixOf (x :: t) then 1 else 0) + countOcc pat t := rfl
    have h2 : countOcc pat ((x :: t) ++ b)
        = (if pat.isPrefixOf (x :: (t ++ b)) then 1 else 0) + countOcc pat (t ++ b) := rfl
    have h3 : (if pat.isPrefixOf (x :: t) then 1 else 0)
        ≤ (if pat.isPrefixOf (x :: (t ++ b)) then 1 else 0) := by
      by_cases hp : pat.isPrefixOf (x :: t)
      · have := isPrefixOf_extend pat (x :: t) b hp
        rw [List.cons_append] at this
        rw [if_pos hp, if_pos this]
      · simp [hp]
    omega

theorem countOcc_le_right (pat : List Char) (a b : List Char) :
    countOcc pat b ≤ countOcc pat (a ++ b) := by
  induction a with
  | nil => simp [countOcc]
  | cons x t ih =>
    have h2 : countOcc pat ((x :: t) ++ b)
        = (if pat.isPrefixOf (x :: (t ++ b)) then 1 else 0) + countOcc pat (t ++ b) := rfl
    omega

theorem countOcc_le_charCount (c : Char) (p l : List Char) :
    countOcc (c :: p) l ≤ charCount c l := by
  induction l with
  | nil => simp [countOcc, charCount]
  | cons x t ih =>
    have h1 : countOcc (c :: p) (x :: t)
        = (if (c :: p).isPrefixOf (x :: t) then 1 else 0) + countOcc (c :: p) t := rfl
    have h2 : charCount c (x :: t) = (if x = c then 1 else 0) + charCount c t := rfl
    have h3 : (if (c :: p).isPrefixOf (x :: t) then 1 else 0) ≤ (if x = c then 1 else 0) := by
      by_cases hpre : (c :: p).isPrefixOf (x :: t)
      · have hx : x = c := by
          have hb : (c == x && p.isPrefixOf t) = true := by
            rw [← List.isPrefixOf_cons₂]; exact hpre
          exact (beq_iff_eq.mp ((Bool.and_eq_true _ _).mp hb).1).symm
        rw [if_pos hpre, if_pos hx]
      · simp [hpre]
    omega

/-- In the aggregated failure layout
`"Analysis Failed. DeepSeek Error: " ++ e1 ++ ". Gemini " ++ tail ++ gmsg ++
". OpenAI Error: " ++ e2`, each provider identifier occurs exactly once,
provided none of the variable parts mentions a provider initial. -/
theorem aggOnce (e1 gmsg e2 tail : String)
    (h1 : noProviderInitial e1) (h2 : noProviderInitial gmsg) (h3 : noProviderInitial e2)
    (ht : noProviderInitial tail) :
    countOccS "DeepSeek" ("Analysis Failed. DeepSeek Error: " ++ e1 ++ (". Gemini " ++ tail)
        ++ gmsg ++ ". OpenAI Error: " ++ e2) = 1
    ∧ countOccS "Gemini" ("Analysis Failed. DeepSeek Error: " ++ e1 ++ (". Gemini " ++ tail)
        ++ gmsg ++ ". OpenAI Error: " ++ e2) = 1
    ∧ countOccS "OpenAI" ("Analysis Failed. DeepSeek Error: " ++ e1 ++ (". Gemini " ++ tail)
        ++ gmsg ++ ". OpenAI Error: " ++ e2) = 1 := by
  obtain ⟨hd1, hg1, ho1⟩ := h1
  obtain ⟨hd2, hg2, ho2⟩ := h2
  obtain ⟨hd3, hg3, ho3⟩ := h3
  obtain ⟨hdt, hgt, hot⟩ := ht
  simp only [charCountS] at hd1 hg1 ho1 hd2 hg2 ho2 hd3 hg3 ho3 hdt hgt hot
  have hdata : ("Analysis Failed. DeepSeek Error: " ++ e1 ++ (". Gemini " ++ tail)
      ++ gmsg ++ ". OpenAI Error: " ++ e2).data
      = ("Analysis Failed. DeepSeek Error: " : String).data ++ (e1.data
        ++ ((". Gemini " : String).data ++ (tail.data ++ (gmsg.data
        ++ ((". OpenAI Error: " : String).data ++ e2.data))))) := by
    simp only [strData_append, List.append_assoc]
  have key : ∀ pat : String, ∀ c : Char, ∀ p : List Char, pat.data = c :: p →
      charCount c (("Analysis Failed. DeepSeek Error: " ++ e1 ++ (". Gemini " ++ tail)
        ++ gmsg ++ ". OpenAI Error: " ++ e2).data) = 1 →
      1 ≤ countOcc pat.data (("Analysis Failed. DeepSeek Error: " ++ e1 ++ (". Gemini " ++ tail)
        ++ gmsg ++ ". OpenAI Error: " ++ e2).data) →
      countOccS pat ("Analysis Failed. DeepSeek Error: " ++ e1 ++ (". Gemini " ++ tail)
        ++ gmsg ++ ". OpenAI Error: " ++ e2) = 1 := by
    intro pat c p hpat hcnt hge
    have hle : countOcc pat.data (("Analysis Failed. DeepSeek Error: " ++ e1 ++ (". Gemini " ++ tail)
        ++ gmsg ++ ". OpenAI Error: " ++ e2).data)
        ≤ charCount c (("Analysis Failed. DeepSeek Error: " ++ e1 ++ (". Gemini " ++ tail)
        ++ gmsg ++ ". OpenAI Error: " ++ e2).data) := by
      rw [hpat]; exact countOcc_le_charCount c p _
    unfold countOccS
    omega
  refine ⟨?_, ?_, ?_⟩
  · refine key "DeepSeek" 'D' "eepSeek".data (by decide) ?_ ?_
    · rw [hdata]
      simp only [charCount_append]
      rw [hd1, hd2, hd3, hdt]
      decide
    rw [hdata]
    calc 1 = countOcc "DeepSeek".data ("Analysis Failed. DeepSeek Error: " : String).data := by decide
    _ ≤ _ := countOcc_le_left _ _ _
  · refine key "Gemini" 'G' "emini".data (by decide) ?_ ?_
    · rw [hdata]
      simp only [charCount_append]
      rw [hg1, hg2, hg3, hgt]
      decide
    rw [hdata]
    calc 1 = countOcc "Gemini".data (". Gemini " : String).data := by decide
    _ ≤ countOcc "Gemini".data ((". Gemini " : String).data ++ (tail.data ++ (gmsg.data
        ++ ((". OpenAI Error: " : String).data ++ e2.data)))) := countOcc_le_left _ _ _
    _ ≤ countOcc "Gemini".data (e1.data ++ ((". Gemini " : String).data ++ (tail.data ++ (gmsg.data
        ++ ((". OpenAI Error: " : String).data ++ e2.data))))) := countOcc_le_right _ _ _
    _ ≤ _ := countOcc_le_right _ _ _
  · refine key "OpenAI" 'O' "penAI".data (by decide) ?_ ?_
    · rw [hdata]
      simp only [charCount_append]
      rw [ho1, ho2, ho3, hot]
      decide
    rw [hdata]
    calc 1 = countOcc "OpenAI".data (". OpenAI Error: " : String).data := by decide
    _ ≤ countOcc "OpenAI".data ((". OpenAI Error: " : String).data ++ e2.data) :=
        countOcc_le_left _ _ _
    _ ≤ countOcc "OpenAI".data (gmsg.data ++ ((". OpenAI Error: " : String).data ++ e2.data)) :=
        countOcc_le_right _ _ _
    _ ≤ countOcc "OpenAI".data (tail.data ++ (gmsg.data
        ++ ((". OpenAI Error: " : String).data ++ e2.data))) := countOcc_le_right _ _ _
    _ ≤ countOcc "OpenAI".data ((". Gemini " : String).data ++ (tail.data ++ (gmsg.data
        ++ ((". OpenAI Error: " : String).data ++ e2.data)))) := countOcc_le_right _ _ _
    _ ≤ countOcc "OpenAI".data (e1.data ++ ((". Gemini " : String).data ++ (tail.data ++ (gmsg.data
        ++ ((". OpenAI Error: " : String).data ++ e2.data))))) := countOcc_le_right _ _ _
    _ ≤ _ := countOcc_le_right _ _ _

/-! ## C1: first success wins, lower-priority providers never invoked -/

/-- C1: for every nonempty prompt, once a provider's attempt succeeds,
`ai_analyze` returns that provider's text immediately and never invokes any
lower-priority provider; in particular, when the first provider (DeepSeek)
fails terminally and the second (Gemini) succeeds, the result is Gemini's text
and the third provider (OpenAI) is never invoked. -/
theorem c1_first_success_wins (p t t2 e1 : String) (hp : p ≠ "")
    (g : Except GeminiError String) (o o2 : Except String String) :
    ai_analyze (some p) (.ok t) g o = (t, [Provider.deepseek])
    ∧ (ai_analyze (some p) (.error e1) (.ok t2) o2).1 = t2
    ∧ (ai_analyze (some p) (.error e1) (.ok t2) o2).2 = [Provider.deepseek, Provider.gemini]
    ∧ Provider.openai ∉ (ai_analyze (some p) (.error e1) (.ok t2) o2).2 := by
  refine ⟨?_, ?_, ?_, ?_⟩ <;> simp [ai_analyze, hp]

/-- Witness for C1 at a concrete prompt, texts and failing lower providers. -/
theorem c1_witness :
    ai_analyze (some "x") (.ok "A") (.error (.other "ge")) (.error "oe")
      = ("A", [Provider.deepseek])
    ∧ (ai_analyze (some "x") (.error "de") (.ok "B") (.error "oe")).1 = "B"
    ∧ (ai_analyze (some "x") (.error "de") (.ok "B") (.error "oe")).2
      = [Provider.deepseek, Provider.gemini]
    ∧ Provider.openai ∉ (ai_analyze (some "x") (.error "de") (.ok "B") (.error "oe")).2 :=
  c1_first_success_wins "x" "A" "B" "de" (by decide) (.error (.other "ge")) (.error "oe")
    (.error "oe")

/-! ## C2: aggregated failure text when all providers fail -/

/-- C2 counterexample: the claim says the composite failure string contains
each tried provider's identifier exactly once; but when a provider's terminal
error text itself mentions the provider (as the real DeepSeek adapter's
terminal message "DeepSeek调用失败(...)" does), the identifier appears twice.
Here DeepSeek's terminal error is "DeepSeek timeout" and "DeepSeek" occurs
twice in the composite string. -/
theorem c2_counterexample :
    (ai_analyze (some "p") (.error "DeepSeek timeout") (.error (.other "g")) (.error "o")).1
      = "Analysis Failed. DeepSeek Error: DeepSeek timeout. Gemini Error: g. OpenAI Error: o"
    ∧ countOccS "DeepSeek"
        ((ai_analyze (some "p") (.error "DeepSeek timeout") (.error (.other "g"))
          (.error "o")).1) = 2
    ∧ ¬ countOccS "DeepSeek"
        ((ai_analyze (some "p") (.error "DeepSeek timeout") (.error (.other "g"))
          (.error "o")).1) = 1 := by
  refine ⟨by decide, by decide, by decide⟩

/-- C2 amended: when every provider fails terminally, `ai_analyze` returns
(rather than raises) the composite failure string
`"Analysis Failed. DeepSeek Error: " ++ e1 ++ <Gemini label> ++ <Gemini msg>
++ ". OpenAI Error: " ++ e2`, which lists each provider's identifier with its
terminal error in priority order; and whenever the three error texts do not
themselves mention a provider initial, each provider identifier occurs in it
exactly once. -/
theorem c2_amended (p e1 e2 : String) (ge : GeminiError) (hp : p ≠ "")
    (h1 : noProviderInitial e1) (h2 : noProviderInitial ge.msg) (h3 : noProviderInitial e2) :
    (ai_analyze (some p) (.error e1) (.error ge) (.error e2)).1
      = "Analysis Failed. DeepSeek Error: " ++ e1 ++ geminiLabel ge ++ ge.msg
        ++ ". OpenAI Error: " ++ e2
    ∧ (ai_analyze (some p) (.error e1) (.error ge) (.error e2)).2
      = [Provider.deepseek, Provider.gemini, Provider.openai]
    ∧ countOccS "DeepSeek" ((ai_analyze (some p) (.error e1) (.error ge) (.error e2)).1) = 1
    ∧ countOccS "Gemini" ((ai_analyze (some p) (.error e1) (.error ge) (.error e2)).1) = 1
    ∧ countOccS "OpenAI" ((ai_analyze (some p) (.error e1) (.error ge) (.error e2)).1) = 1 := by
  have hout : (ai_analyze (some p) (.error e1) (.error ge) (.error e2)).1
      = failText e1 ge e2 := by
    simp [ai_analyze, hp]
  have hlist : (ai_analyze (some p) (.error e1) (.error ge) (.error e2)).2
      = [Provider.deepseek, Provider.gemini, Provider.openai] := by
    simp [ai_analyze, hp]
  cases ge with
  | quotaExceeded q =>
    have hmsg : GeminiError.msg (.quotaExceeded q) = q := rfl
    have hlbl : (". Gemini Quota Error: " : String) = ". Gemini " ++ "Quota Error: " := by decide
    have hform : failText e1 (.quotaExceeded q) e2
        = "Analysis Failed. DeepSeek Error: " ++ e1 ++ (". Gemini " ++ "Quota Error: ")
          ++ q ++ ". OpenAI Error: " ++ e2 := by
      rw [failText, ← hlbl]
    rw [hmsg] at h2
    have hcounts := aggOnce e1 q e2 "Quota Error: " h1 h2 h3 (by decide)
    refine ⟨?_, hlist, ?_, ?_, ?_⟩
    · rw [hout, hform, geminiLabel, hmsg, hlbl]
    · rw [hout, hform]; exact hcounts.1
    · rw [hout, hform]; exact hcounts.2.1
    · rw [hout, hform]; exact hcounts.2.2
  | rateLimited r =>
    have hmsg : GeminiError.msg (.rateLimited r) = r := rfl
    have hlbl : (". Gemini RateLimit Error: " : String) = ". Gemini " ++ "RateLimit Error: " := by
      decide
    have hform : failText e1 (.rateLimited r) e2
        = "Analysis Failed. DeepSeek Error: " ++ e1 ++ (". Gemini " ++ "RateLimit Error: ")
          ++ r ++ ". OpenAI Error: " ++ e2 := by
      rw [failText, ← hlbl]
    rw [hmsg] at h2
    have hcounts := aggOnce e1 r e2 "RateLimit Error: " h1 h2 h3 (by decide)
    refine ⟨?_, hlist, ?_, ?_, ?_⟩
    · rw [hout, hform, geminiLabel, hmsg, hlbl]
    · rw [hout, hform]; exact hcounts.1
    · rw [hout, hform]; exact hcounts.2.1
    · rw [hout, hform]; exact hcounts.2.2
  | other g =>
    have hmsg : GeminiError.msg (.other g) = g := rfl
    have hlbl : (". Gemini Error: " : String) = ". Gemini " ++ "Error: " := by decide
    have hform : failText e1 (.other g) e2
        = "Analysis Failed. DeepSeek Error: " ++ e1 ++ (". Gemini " ++ "Error: ")
          ++ g ++ ". OpenAI Error: " ++ e2 := by
      rw [failText, ← hlbl]
    rw [hmsg] at h2
    have hcounts := aggOnce e1 g e2 "Error: " h1 h2 h3 (by decide)
    refine ⟨?_, hlist, ?_, ?_, ?_⟩
    · rw [hout, hform, geminiLabel, hmsg, hlbl]
    · rw [hout, hform]; exact hcounts.1
    · rw [hout, hform]; exact hcounts.2.1
    · rw [hout, hform]; exact hcounts.2.2

/-- Witness for C2 amended at concrete error texts free of provider initials. -/
theorem c2_witness :
    (ai_analyze (some "x") (.error "timeout a") (.error (.other "bad body"))
        (.error "key missing")).1
      = "Analysis Failed. DeepSeek Error: " ++ "timeout a"
        ++ geminiLabel (.other "bad body") ++ (GeminiError.other "bad body").msg
        ++ ". OpenAI Error: " ++ "key missing"
    ∧ (ai_analyze (some "x") (.error "timeout a") (.error (.other "bad body"))
        (.error "key missing")).2
      = [Provider.deepseek, Provider.gemini, Provider.openai]
    ∧ countOccS "DeepSeek" ((ai_analyze (some "x") (.error "timeout a")
        (.error (.other "bad body")) (.error "key missing")).1) = 1
    ∧ countOccS "Gemini" ((ai_analyze (some "x") (.error "timeout a")
        (.error (.other "bad body")) (.error "key missing")).1) = 1
    ∧ countOccS "OpenAI" ((ai_analyze (some "x") (.error "timeout a")
        (.error (.other "bad body")) (.error "key missing")).1) = 1 :=
  c2_amended "x" "timeout a" "key missing" (.other "bad body") (by decide) (by decide)
    (by decide) (by decide)

/-! ## C3: quota-exhausted 429 terminates after exactly one attempt -/

/-- C3: a 429 response classified quota-exhausted on attempt 1 makes the retry
engine stop after exactly one HTTP attempt, with no retry sleep, raising the
distinct `GeminiQuotaExceeded` terminal outcome — for every configured
`max_retries ≥ 1` and every `base_sleep`. -/
theorem c3_quota_single_attempt (max_retries : Nat) (base_sleep : ℚ)
    (ev : Nat → AttemptEv) (jit : Nat → ℚ) (r : GemResp)
    (hmax : 1 ≤ max_retries) (hev : ev 1 = .resp r) (hst : r.status = 429)
    (hq : _is_quota_exhausted r = true) :
    call_gemini_http max_retries base_sleep ev jit
      = (.quotaExceeded (pyTake 1200 r.text), 1, []) := by
  cases max_retries with
  | zero => omega
  | succ f =>
    simp [call_gemini_http, gemAux, hev, hst, hq]

/-- Witness for C3: a concrete quota-exhausted 429 body, `max_retries = 8`. -/
theorem c3_witness :
    call_gemini_http 8 (5 : ℚ)
      (fun _ => .resp (⟨429, "You have Quota exceeded today", none, none, none, none,
        .error "n/a"⟩ : GemResp))
      (fun _ => 0)
      = (.quotaExceeded (pyTake 1200 "You have Quota exceeded today"), 1, []) :=
  c3_quota_single_attempt 8 5 _ _ _ (by decide) rfl rfl (by decide)

/-- Run lemma for the retry loop: if attempts `k, …, k+m-1` all yield
retryable failures — transient (non-quota) 429s or 503 overloads — and
attempt `k+m` succeeds, with enough fuel left, the loop returns the success
after sleeping exactly the per-attempt `retryDelay` before each retry. -/
theorem gemAux_retry_run (base : ℚ) (ev : Nat → AttemptEv) (jit : Nat → ℚ)
    (rs : Nat → GemResp) (r2 : GemResp) (t : String) :
    ∀ (m fuel k : Nat) (sleeps : List Int) (lastErr : Option String),
      m < fuel →
      (∀ i, k ≤ i → i < k + m → ev i = .resp (rs i) ∧ retryableResp (rs i)) →
      ev (k + m) = .resp r2 → r2.status = 200 → r2.extract = .ok t →
      gemAux base ev jit fuel k sleeps lastErr
        = (.ok t, k + m, sleeps ++ (List.range m).map
            (fun j => retryDelay base (jit (k + j)) (k + j) (rs (k + j)))) := by
  intro m
  induction m with
  | zero =>
    intro fuel k sleeps lastErr hf htrans hsucc h200 hex
    cases fuel with
    | zero => omega
    | succ f =>
      rw [Nat.add_zero] at hsucc ⊢
      simp [gemAux, hsucc, h200, hex]
  | succ m ih =>
    intro fuel k sleeps lastErr hf htrans hsucc h200 hex
    cases fuel with
    | zero => omega
    | succ f =>
      obtain ⟨hevk, hretry⟩ := htrans k (le_refl k) (by omega)
      have hf0 : ¬ (f = 0) := by omega
      have step : gemAux base ev jit (f + 1) k sleeps lastErr
          = gemAux base ev jit f (k + 1)
              (sleeps ++ [retryDelay base (jit k) k (rs k)]) lastErr := by
        rcases hretry with ⟨hst, hqf⟩ | hst
        · simp [gemAux, hevk, hst, hqf, hf0, retryDelay, transientDelay]
        · simp [gemAux, hevk, hst, hf0, retryDelay]
      have htrans' : ∀ i, k + 1 ≤ i → i < (k + 1) + m → ev i = .resp (rs i)
          ∧ retryableResp (rs i) := by
        intro i h1 h2
        exact htrans i (by omega) (by omega)
      have hsucc' : ev ((k + 1) + m) = .resp r2 := by
        have he : (k + 1) + m = k + (m + 1) := by omega
        rw [he]
        exact hsucc
      rw [step, ih f (k + 1) _ lastErr (by omega) htrans' hsucc' h200 hex]
      simp only [Prod.mk.injEq, true_and]
      refine ⟨by omega, ?_⟩
      rw [List.append_assoc]
      congr 1
      rw [List.range_succ_eq_map, List.map_cons, List.map_map]
      simp only [List.singleton_append, Nat.add_zero]
      congr 1
      refine List.map_congr_left ?_
      intro a _
      have he : k + (a + 1) = k + 1 + a := by omega
      simp [Function.comp, he]

/-! ## C4: the retry delay formula -/

/-- C4 counterexample. Run A: a transient 429 carries a server hint of 1s
while the backoff term is `base_sleep * 2^0 + jitter = 3`; the claim's
`max(server hint, backoff)` formula gives 3, but the engine sleeps exactly the
hint, 1s. Run B: a transient 429 with no server hint and `base_sleep = 0`,
jitter 0: the engine sleeps 0s, so the slept delay is not clamped to a minimum
of 1 second as claimed. Run C: a 503 overload whose response carries a
Retry-After hint of 7s, with `base_sleep = 1`, jitter 0: the engine sleeps the
plain backoff 1s — the hint is never consulted on the overload path, while the
claim's `max(hint, backoff)` formula gives 7. -/
theorem c4_counterexample :
    call_gemini_http 8 3
      (fun i => if i = 1 then
          .resp (⟨429, "slow", some 1, none, none, none, .error "e"⟩ : GemResp)
        else .resp (⟨200, "", none, none, none, none, .ok "T"⟩ : GemResp))
      (fun _ => 0)
      = (.ok "T", 2, [1])
    ∧ pyMaxI 1 (pyMaxI 1 (pyInt ((3 : ℚ) * 2 ^ ((1 : Nat) - 1) + 0))) = 3
    ∧ (1 : Int) ≠ 3
    ∧ call_gemini_http 8 0
      (fun i => if i = 1 then
          .resp (⟨429, "slow", none, none, none, none, .error "e"⟩ : GemResp)
        else .resp (⟨200, "", none, none, none, none, .ok "T"⟩ : GemResp))
      (fun _ => 0)
      = (.ok "T", 2, [0])
    ∧ ¬ ((1 : Int) ≤ 0)
    ∧ call_gemini_http 8 1
      (fun i => if i = 1 then
          .resp (⟨503, "busy", some 7, none, none, none, .error "e"⟩ : GemResp)
        else .resp (⟨200, "", none, none, none, none, .ok "T"⟩ : GemResp))
      (fun _ => 0)
      = (.ok "T", 2, [1])
    ∧ pyMaxI 1 (pyMaxI (pyInt (7 : ℚ)) (pyInt ((1 : ℚ) * 2 ^ ((1 : Nat) - 1) + 0))) = 7
    ∧ (1 : Int) ≠ 7 := by
  refine ⟨by decide, ?_, by decide, ?_, by decide, ?_, ?_, by decide⟩
  · have h3 : ((3 : ℚ) * 2 ^ ((1 : Nat) - 1) + 0) = 3 := by norm_num
    rw [h3]
    decide
  · have hd : retryDelay 0 0 1
        (⟨429, "slow", none, none, none, none, .error "e"⟩ : GemResp) = 0 := by
      rw [retryDelay, if_pos rfl]
      have he : _extract_retry_seconds
          (⟨429, "slow", none, none, none, none, .error "e"⟩ : GemResp) = 0 := by decide
      rw [transientDelay, he, if_pos (by omega), backoffDelay]
      have h0 : ((0 : ℚ) * 2 ^ ((1 : Nat) - 1) + 0) = 0 := by norm_num
      rw [h0]
      decide
    have htr : ∀ i, 1 ≤ i → i < 1 + 1 →
        (fun i => if i = 1 then
            AttemptEv.resp (⟨429, "slow", none, none, none, none, .error "e"⟩ : GemResp)
          else .resp (⟨200, "", none, none, none, none, .ok "T"⟩ : GemResp)) i
          = .resp ((fun _ => (⟨429, "slow", none, none, none, none,
              .error "e"⟩ : GemResp)) i)
        ∧ retryableResp ((fun _ => (⟨429, "slow", none, none, none, none,
            .error "e"⟩ : GemResp)) i) := by
      intro i hi1 hi2
      have hi : i = 1 := by omega
      subst hi
      exact ⟨rfl, Or.inl ⟨rfl, by decide⟩⟩
    have h := gemAux_retry_run 0
      (fun i => if i = 1 then
          AttemptEv.resp (⟨429, "slow", none, none, none, none, .error "e"⟩ : GemResp)
        else .resp (⟨200, "", none, none, none, none, .ok "T"⟩ : GemResp))
      (fun _ => 0)
      (fun _ => (⟨429, "slow", none, none, none, none, .error "e"⟩ : GemResp))
      (⟨200, "", none, none, none, none, .ok "T"⟩ : GemResp) "T"
      1 8 1 [] none (by omega) htr rfl rfl rfl
    rw [call_gemini_http, h]
    have hr : List.range 1 = [0] := by decide
    rw [hr]
    simp only [List.map_cons, List.map_nil, Nat.add_zero, List.nil_append]
    rw [hd]
  · have hd : retryDelay 1 0 1
        (⟨503, "busy", some 7, none, none, none, .error "e"⟩ : GemResp) = 1 := by
      have hne : ¬ ((⟨503, "busy", some 7, none, none, none,
          .error "e"⟩ : GemResp).status = 429) := by decide
      rw [retryDelay, if_neg hne, backoffDelay]
      have h1 : ((1 : ℚ) * 2 ^ ((1 : Nat) - 1) + 0) = 1 := by norm_num
      rw [h1]
      decide
    have htr : ∀ i, 1 ≤ i → i < 1 + 1 →
        (fun i => if i = 1 then
            AttemptEv.resp (⟨503, "busy", some 7, none, none, none, .error "e"⟩ : GemResp)
          else .resp (⟨200, "", none, none, none, none, .ok "T"⟩ : GemResp)) i
          = .resp ((fun _ => (⟨503, "busy", some 7, none, none, none,
              .error "e"⟩ : GemResp)) i)
        ∧ retryableResp ((fun _ => (⟨503, "busy", some 7, none, none, none,
            .error "e"⟩ : GemResp)) i) := by
      intro i hi1 hi2
      have hi : i = 1 := by omega
      subst hi
      exact ⟨rfl, Or.inr rfl⟩
    have h := gemAux_retry_run 1
      (fun i => if i = 1 then
          AttemptEv.resp (⟨503, "busy", some 7, none, none, none, .error "e"⟩ : GemResp)
        else .resp (⟨200, "", none, none, none, none, .ok "T"⟩ : GemResp))
      (fun _ => 0)
      (fun _ => (⟨503, "busy", some 7, none, none, none, .error "e"⟩ : GemResp))
      (⟨200, "", none, none, none, none, .ok "T"⟩ : GemResp) "T"
      1 8 1 [] none (by omega) htr rfl rfl rfl
    rw [call_gemini_http, h]
    have hr : List.range 1 = [0] := by decide
    rw [hr]
    simp only [List.map_cons, List.map_nil, Nat.add_zero, List.nil_append]
    rw [hd]
  · have h7 : ((1 : ℚ) * 2 ^ ((1 : Nat) - 1) + 0) = 1 := by norm_num
    rw [h7]
    decide

/-- C4 amended: for a run of retryable failures — each a transient (non-quota)
429 or a 503 overload — on attempts 1..m (m strictly below `max_retries`)
followed by a success, the engine sleeps exactly once per failed attempt. The
delay slept before the retry that follows attempt `k` is: for a transient 429,
the server-suggested retry delay clamped to a minimum of 1 second whenever one
is extracted (used INSTEAD of — not maxed with — the backoff term), and
otherwise the truncated exponential backoff `int(base_sleep * 2^(k-1) +
jitter)` with NO minimum clamp; for a 503 overload, always that truncated
backoff — the server hint is never consulted and no minimum clamp applies. -/
theorem c4_amended (max_retries : Nat) (base : ℚ) (ev : Nat → AttemptEv)
    (jit : Nat → ℚ) (rs : Nat → GemResp) (r2 : GemResp) (t : String) (m : Nat)
    (hm : m < max_retries)
    (htrans : ∀ i, 1 ≤ i → i < 1 + m → ev i = .resp (rs i) ∧ retryableResp (rs i))
    (hsucc : ev (1 + m) = .resp r2) (h200 : r2.status = 200)
    (hex : r2.extract = .ok t) :
    call_gemini_http max_retries base ev jit
      = (.ok t, 1 + m, (List.range m).map
          (fun j => retryDelay base (jit (1 + j)) (1 + j) (rs (1 + j))))
    ∧ (∀ i v, (rs i).status = 429 → (rs i).retryAfterQ = some v →
        retryDelay base (jit i) i (rs i) = pyMaxI 1 (pyInt v))
    ∧ (∀ i, (rs i).status = 429 → (rs i).retryAfterQ = none →
        (rs i).retryInTextQ = none → (rs i).retryInJsonQ = none →
        retryDelay base (jit i) i (rs i) = pyInt (base * 2 ^ (i - 1) + jit i))
    ∧ (∀ i, (rs i).status = 503 →
        retryDelay base (jit i) i (rs i) = pyInt (base * 2 ^ (i - 1) + jit i)) := by
  refine ⟨?_, ?_, ?_, ?_⟩
  · have h := gemAux_retry_run base ev jit rs r2 t m max_retries 1 [] none hm htrans
      hsucc h200 hex
    rw [call_gemini_http, h]
    simp
  · intro i v h429 hv
    have he : _extract_retry_seconds (rs i) = pyMaxI 1 (pyInt v) := by
      unfold _extract_retry_seconds
      rw [hv]
    have hpos : (1 : Int) ≤ pyMaxI 1 (pyInt v) := by
      unfold pyMaxI
      split <;> omega
    rw [retryDelay, if_pos h429, transientDelay, he, if_neg (by omega)]
  · intro i h429 h1 h2 h3
    have he : _extract_retry_seconds (rs i) = 0 := by
      unfold _extract_retry_seconds
      rw [h1, h2, h3]
    rw [retryDelay, if_pos h429, transientDelay, he, if_pos (by omega)]
    rfl
  · intro i h503
    have hne : ¬ ((rs i).status = 429) := by
      rw [h503]
      decide
    rw [retryDelay, if_neg hne]
    rfl

/-- Witness for C4 amended: a transient 429 (no hints) on attempt 1, a 503
overload on attempt 2, success on attempt 3, with `base_sleep = 2`, jitter 0
and `max_retries = 4`: the engine sleeps the unclamped backoffs 2s then 4s. -/
theorem c4_witness :
    call_gemini_http 4 2
      (fun i => if i = 1 then
          .resp (⟨429, "slow", none, none, none, none, .error "e"⟩ : GemResp)
        else if i = 2 then
          .resp (⟨503, "busy", none, none, none, none, .error "e"⟩ : GemResp)
        else .resp (⟨200, "", none, none, none, none, .ok "T"⟩ : GemResp))
      (fun _ => 0)
      = (.ok "T", 3, [2, 4]) := by
  have htr : ∀ i, 1 ≤ i → i < 1 + 2 →
      (fun i => if i = 1 then
          AttemptEv.resp (⟨429, "slow", none, none, none, none, .error "e"⟩ : GemResp)
        else if i = 2 then
          .resp (⟨503, "busy", none, none, none, none, .error "e"⟩ : GemResp)
        else .resp (⟨200, "", none, none, none, none, .ok "T"⟩ : GemResp)) i
        = .resp ((fun i => if i = 2 then
            (⟨503, "busy", none, none, none, none, .error "e"⟩ : GemResp)
          else (⟨429, "slow", none, none, none, none, .error "e"⟩ : GemResp)) i)
      ∧ retryableResp ((fun i => if i = 2 then
            (⟨503, "busy", none, none, none, none, .error "e"⟩ : GemResp)
          else (⟨429, "slow", none, none, none, none, .error "e"⟩ : GemResp)) i) := by
    intro i hi1 hi2
    rcases (by omega : i = 1 ∨ i = 2) with rfl | rfl
    · exact ⟨rfl, Or.inl ⟨rfl, by decide⟩⟩
    · exact ⟨rfl, Or.inr rfl⟩
  have h := (c4_amended 4 2
    (fun i => if i = 1 then
        AttemptEv.resp (⟨429, "slow", none, none, none, none, .error "e"⟩ : GemResp)
      else if i = 2 then
        .resp (⟨503, "busy", none, none, none, none, .error "e"⟩ : GemResp)
      else .resp (⟨200, "", none, none, none, none, .ok "T"⟩ : GemResp))
    (fun _ => 0)
    (fun i => if i = 2 then
        (⟨503, "busy", none, none, none, none, .error "e"⟩ : GemResp)
      else (⟨429, "slow", none, none, none, none, .error "e"⟩ : GemResp))
    (⟨200, "", none, none, none, none, .ok "T"⟩ : GemResp) "T" 2
    (by omega) htr rfl rfl rfl).1
  rw [h]
  have hd1 : retryDelay 2 0 1
      (⟨429, "slow", none, none, none, none, .error "e"⟩ : GemResp) = 2 := by
    rw [retryDelay, if_pos rfl]
    have he : _extract_retry_seconds
        (⟨429, "slow", none, none, none, none, .error "e"⟩ : GemResp) = 0 := by decide
    rw [transientDelay, he, if_pos (by omega), backoffDelay]
    have h2 : ((2 : ℚ) * 2 ^ ((1 : Nat) - 1) + 0) = 2 := by norm_num
    rw [h2]
    decide
  have hd2 : retryDelay 2 0 2
      (⟨503, "busy", none, none, none, none, .error "e"⟩ : GemResp) = 4 := by
    have hne : ¬ ((⟨503, "busy", none, none, none, none,
        .error "e"⟩ : GemResp).status = 429) := by decide
    rw [retryDelay, if_neg hne, backoffDelay]
    have h4 : ((2 : ℚ) * 2 ^ ((2 : Nat) - 1) + 0) = 4 := by norm_num
    rw [h4]
    decide
  have hr : List.range 2 = [0, 1] := by decide
  rw [hr]
  simp only [List.map_cons, List.map_nil, Nat.add_zero]
  norm_num
  rw [hd1, hd2]
  exact ⟨rfl, rfl⟩

/-! ## C5: the planned market-data query window -/

/-- C5 counterexample, with dates as day ordinals (days since 1970-01-01):
`now` = 20105 (2025-01-17) and a supplied, perfectly parseable reference date
2025-01-10 (= 20098). The query start actually requested is `now - 40` =
20065 — neither `reference - 15` = 20083 nor `now - 15` = 20090 as claimed. -/
theorem c5_counterexample :
    (fetch_stock_data_dynamic "002641" (some "2025-01-10") 20105
      (fun _ _ => .ok [⟨0, 1, 1, 1, 1, 1⟩])).startRequested = 20065
    ∧ (20065 : Int) ≠ 20098 - 15
    ∧ (20065 : Int) ≠ 20105 - 15 := by
  refine ⟨by decide, by decide, by decide⟩

/-- C5 amended: the market-data query window always starts at `now - 40` days
and ends implicitly at now; the supplied reference date is ignored entirely
(the result is identical for any two `buy_date_str` values, so in particular
an unparsable reference date never raises — no parsing is even attempted). -/
theorem c5_amended (symbol : String) (bd1 bd2 : Option String) (now : Int)
    (src : String → Int → Except String (List Bar)) :
    (fetch_stock_data_dynamic symbol bd1 now src).startRequested = now - 40
    ∧ fetch_stock_data_dynamic symbol bd1 now src
      = fetch_stock_data_dynamic symbol bd2 now src := by
  constructor
  · simp only [fetch_stock_data_dynamic]
    cases h : src (normalizeCode symbol) (now - 40) with
    | error e => rfl
    | ok df =>
      by_cases hdf : df = []
      · simp [hdf]
      · simp [hdf]
  · rfl


/-! ## C6: row-count ceiling and (absent) resolution escalation -/

theorem fixOpensGo_length (df : List Bar) :
    ∀ p, (fixOpensGo p df).length = df.length := by
  induction df with
  | nil => intro p; rfl
  | cons b rest ih =>
    intro p
    simp only [fixOpensGo, List.length_cons, ih]

theorem fixOpens_length (df : List Bar) : (fixOpens df).length = df.length := by
  unfold fixOpens
  split
  · exact fixOpensGo_length df none
  · rfl

/-- A 501-row bar series with no zero opens, exceeding the source's 500-row
truncation threshold. -/
def df501 : List Bar :=
  (List.range 501).map (fun i => ⟨Int.ofNat i, 1, 1, 1, 1, 1⟩)

/-- C6 counterexample: on a fine-resolution fetch of 501 rows the source keeps
the period hint "5m" (no escalation to a coarser resolution exists anywhere in
the code) yet truncates the series to 500 rows. So the claim fails for every
reading of its ceiling: if the ceiling is ≥ 501 the series should have been
untouched (it lost a row), and if the ceiling is < 501 the resolution should
have escalated to coarse (the hint is still the fine "5m"). -/
theorem c6_counterexample :
    (fetch_stock_data_dynamic "002641" none 20105 (fun _ _ => .ok df501)).period = "5m"
    ∧ (fetch_stock_data_dynamic "002641" none 20105 (fun _ _ => .ok df501)).df.length = 500
    ∧ ¬ ((fetch_stock_data_dynamic "002641" none 20105 (fun _ _ => .ok df501)).df
          = fixOpens df501
        ∨ (fetch_stock_data_dynamic "002641" none 20105
            (fun _ _ => .ok df501)).period ≠ "5m") := by
  have hfix : fixOpens df501 = df501 := by
    unfold fixOpens
    rw [if_neg]
    intro hany
    rw [List.any_eq_true] at hany
    obtain ⟨b, hbmem, hb⟩ := hany
    rw [df501, List.mem_map] at hbmem
    obtain ⟨i, _, rfl⟩ := hbmem
    exact absurd (of_decide_eq_true hb) (by norm_num)
  have hlen : df501.length = 501 := by simp [df501]
  have hne : df501 ≠ [] := by
    intro h
    rw [h] at hlen
    simp at hlen
  have hout : fetch_stock_data_dynamic "002641" none 20105 (fun _ _ => .ok df501)
      = ⟨20105 - 40, pyTail 500 df501, "5m"⟩ := by
    simp only [fetch_stock_data_dynamic]
    rw [if_neg hne, hfix]
    rw [if_pos (by rw [hlen]; omega)]
  rw [hout, hfix]
  have hl : (pyTail 500 df501).length = 500 := by
    rw [pyTail, List.length_drop, hlen]

  refine ⟨rfl, hl, ?_⟩
  intro hor
  rcases hor with heq | hper
  · have := congrArg List.length heq
    rw [hl, hlen] at this
    omega
  · exact hper rfl

/-- C6 amended: the resolution hint never escalates — the period is always the
fine "5m" — and after the zero-open repair the series is truncated to the most
recent 500 rows exactly when it has more than 500 rows: the returned length is
`min r 500` and the returned series is a suffix of the repaired series, equal
to it whenever `r ≤ 500`. -/
theorem c6_amended (symbol : String) (bd : Option String) (now : Int)
    (src : String → Int → Except String (List Bar)) (df : List Bar)
    (hsrc : src (normalizeCode symbol) (now - 40) = .ok df) (hne : df ≠ []) :
    (fetch_stock_data_dynamic symbol bd now src).period = "5m"
    ∧ (fetch_stock_data_dynamic symbol bd now src).df.length = min df.length 500
    ∧ (fetch_stock_data_dynamic symbol bd now src).df <:+ fixOpens df
    ∧ (df.length ≤ 500 → (fetch_stock_data_dynamic symbol bd now src).df = fixOpens df) := by
  have hlen : (fixOpens df).length = df.length := fixOpens_length df
  have hout : fetch_stock_data_dynamic symbol bd now src
      = ⟨now - 40, if 500 < (fixOpens df).length then pyTail 500 (fixOpens df)
          else fixOpens df, "5m"⟩ := by
    simp only [fetch_stock_data_dynamic, hsrc]
    rw [if_neg hne]
  rw [hout]
  by_cases h5 : 500 < (fixOpens df).length
  · rw [if_pos h5]
    refine ⟨rfl, ?_, ?_, ?_⟩
    · rw [pyTail, List.length_drop, hlen]
      omega
    · exact List.drop_suffix _ _
    · intro hle
      omega
  · rw [if_neg h5]
    refine ⟨rfl, ?_, ?_, ?_⟩
    · rw [hlen]
      omega
    · exact List.suffix_refl _
    · intro _
      rfl

/-- Witness for C6 amended at a concrete 3-row fetch. -/
theorem c6_witness :
    (fetch_stock_data_dynamic "2641" none 100
      (fun _ _ => .ok [⟨0, 1, 1, 1, 1, 1⟩, ⟨1, 2, 2, 2, 2, 2⟩,
        ⟨2, 3, 3, 3, 3, 3⟩])).period = "5m"
    ∧ (fetch_stock_data_dynamic "2641" none 100
      (fun _ _ => .ok [⟨0, 1, 1, 1, 1, 1⟩, ⟨1, 2, 2, 2, 2, 2⟩,
        ⟨2, 3, 3, 3, 3, 3⟩])).df.length = min 3 500
    ∧ (fetch_stock_data_dynamic "2641" none 100
      (fun _ _ => .ok [⟨0, 1, 1, 1, 1, 1⟩, ⟨1, 2, 2, 2, 2, 2⟩,
        ⟨2, 3, 3, 3, 3, 3⟩])).df
        <:+ fixOpens [⟨0, 1, 1, 1, 1, 1⟩, ⟨1, 2, 2, 2, 2, 2⟩, ⟨2, 3, 3, 3, 3, 3⟩]
    ∧ ((3 : Nat) ≤ 500 → (fetch_stock_data_dynamic "2641" none 100
      (fun _ _ => .ok [⟨0, 1, 1, 1, 1, 1⟩, ⟨1, 2, 2, 2, 2, 2⟩,
        ⟨2, 3, 3, 3, 3, 3⟩])).df
        = fixOpens [⟨0, 1, 1, 1, 1, 1⟩, ⟨1, 2, 2, 2, 2, 2⟩, ⟨2, 3, 3, 3, 3, 3⟩]) :=
  c6_amended "2641" none 100 _ [⟨0, 1, 1, 1, 1, 1⟩, ⟨1, 2, 2, 2, 2, 2⟩,
    ⟨2, 3, 3, 3, 3, 3⟩] rfl (by decide)

/-! ## C7: per-position isolation and the push-list manifest -/

/-- The batch loop processes every item in order and collects exactly the
per-position results, independently of raised exceptions in earlier items. -/
theorem mainLoop_spec (items : List (String × StepEvent)) :
    (mainLoop items).1 = items.map Prod.fst
    ∧ (mainLoop items).2 = items.filterMap (fun it => posResult it.1 it.2) := by
  induction items with
  | nil => exact ⟨rfl, rfl⟩
  | cons it rest ih =>
    obtain ⟨sym, ev⟩ := it
    constructor
    · simp [mainLoop, ih.1]
    · cases h : posResult sym ev <;>
        simp [mainLoop, List.filterMap_cons, h, ih.2]

/-- C7 counterexample: when every position fails, `main` completes and
processes all positions, but no manifest file is written at all (`pushList =
none`) — not a manifest listing the (empty) set of produced reports. -/
theorem c7_counterexample :
    (mainBatch [("A", .raises "boom"), ("B", .raises "crash")]).pushList = none
    ∧ (mainBatch [("A", .raises "boom"), ("B", .raises "crash")]).processed = ["A", "B"]
    ∧ none ≠ some ([] : List String) := by
  refine ⟨rfl, rfl, by decide⟩

/-- C7 amended: an error raised while processing position i never aborts the
batch run — every position is processed in order and the entry point
completes; a position whose bar fetch is empty contributes no report and the
run continues; the generated reports are exactly the per-position successes in
order; and the manifest `push_list.txt` lists exactly the generated reports
whenever at least one was produced — when none were, no manifest file is
written. -/
theorem c7_amended (items : List (String × StepEvent)) (sym : String) :
    (mainBatch items).processed = items.map Prod.fst
    ∧ (mainBatch items).generated = items.filterMap (fun it => posResult it.1 it.2)
    ∧ (mainBatch items).pushList
      = (if items.filterMap (fun it => posResult it.1 it.2) = [] then none
         else some (items.filterMap (fun it => posResult it.1 it.2)))
    ∧ (∀ m, posResult sym (.raises m) = none)
    ∧ (∀ env : PosEnv, (fetch_stock_data_dynamic (normalizeCode sym) env.posDate env.now
        env.src).df = [] → posResult sym (.runs env) = none) := by
  have h := mainLoop_spec items
  refine ⟨h.1, h.2, ?_, fun m => rfl, ?_⟩
  · show (if (mainLoop items).2 = [] then none else some (mainLoop items).2) = _
    rw [h.2]
  · intro env hdf
    simp [posResult, process_one_stock, hdf]

/-- Witness for C7 amended: a raising position followed by a successful one,
plus a position with an empty bar fetch. -/
theorem c7_witness :
    (mainBatch [("A", .raises "boom"),
      ("2641", .runs ⟨none, 100, "T", fun _ _ => .ok [⟨0, 1, 1, 1, 1, 1⟩], true⟩)]).processed
      = ["A", "2641"]
    ∧ (mainBatch [("A", .raises "boom"),
      ("2641", .runs ⟨none, 100, "T", fun _ _ => .ok [⟨0, 1, 1, 1, 1, 1⟩], true⟩)]).generated
      = ["reports/002641_report_5m_T.pdf"]
    ∧ (mainBatch [("A", .raises "boom"),
      ("2641", .runs ⟨none, 100, "T", fun _ _ => .ok [⟨0, 1, 1, 1, 1, 1⟩], true⟩)]).pushList
      = some ["reports/002641_report_5m_T.pdf"]
    ∧ posResult "7" (.raises "x") = none
    ∧ posResult "7" (.runs ⟨none, 100, "T", fun _ _ => .ok [], true⟩) = none := by
  have h := c7_amended [("A", .raises "boom"),
    ("2641", .runs ⟨none, 100, "T", fun _ _ => .ok [⟨0, 1, 1, 1, 1, 1⟩], true⟩)] "7"
  exact ⟨h.1.trans rfl, h.2.1.trans rfl, h.2.2.1.trans rfl,
    h.2.2.2.1 "x", h.2.2.2.2 ⟨none, 100, "T", fun _ _ => .ok [], true⟩ rfl⟩

/-! ## C8: identifier normalization and the "000000" guard -/

theorem strLength_append (s t : String) : (s ++ t).length = s.length + t.length :=
  List.length_append s.data t.data

/-- C8 counterexample: on an input with more than 6 digits, the normalization
does not produce exactly 6 digits — `zfill` pads but never truncates, so
"1234567" normalizes to the 7-digit "1234567", and a sheet cell holding it
becomes a 7-digit lookup key. -/
theorem c8_counterexample :
    normalizeCode "1234567" = "1234567"
    ∧ (normalizeCode "1234567").length ≠ 6 := by
  refine ⟨by decide, by decide⟩

theorem dictInsert_keys (l : List (String × StockInfo)) (k : String) (v : StockInfo)
    (hk : k ≠ "000000") (hl : "000000" ∉ l.map Prod.fst) :
    "000000" ∉ (dictInsert l k v).map Prod.fst := by
  unfold dictInsert
  split
  · intro hmem
    rw [List.mem_map] at hmem
    obtain ⟨p, hp, hp0⟩ := hmem
    rw [List.mem_map] at hp
    obtain ⟨q, hq, rfl⟩ := hp
    by_cases hqk : q.1 = k
    · rw [if_pos hqk] at hp0
      exact hk hp0
    · rw [if_neg hqk] at hp0
      exact hl (List.mem_map.mpr ⟨q, hq, hp0⟩)
  · intro hmem
    rw [List.map_append, List.mem_append] at hmem
    rcases hmem with hmem | hmem
    · exact hl hmem
    · simp at hmem
      exact hk hmem.symm

theorem parseStep_no_zero (nowStr : String) (acc : List (String × StockInfo))
    (row : SheetRecord) (hacc : "000000" ∉ acc.map Prod.fst) :
    "000000" ∉ (parseStep nowStr acc row).map Prod.fst := by
  unfold parseStep
  split
  · exact hacc
  · rename_i kv heq
    show "000000" ∉ List.map Prod.fst
      (if normalizeCode kv.2 = "" ∨ normalizeCode kv.2 = "000000" then acc
       else dictInsert acc (normalizeCode kv.2)
         ⟨if (rowGet row "BuyDate").trim = "" then nowStr else (rowGet row "BuyDate").trim,
          if (rowGet row "Qty").trim = "" then "0" else (rowGet row "Qty").trim,
          if (rowGet row "Price").trim = "" then "0.0" else (rowGet row "Price").trim⟩)
    by_cases hc : normalizeCode kv.2 = "" ∨ normalizeCode kv.2 = "000000"
    · rw [if_pos hc]
      exact hacc
    · rw [if_neg hc]
      exact dictInsert_keys _ _ _ (fun h => hc (Or.inr h)) hacc

theorem parse_records_no_zero (nowStr : String) (records : List SheetRecord) :
    "000000" ∉ (_parse_records nowStr records).map Prod.fst := by
  unfold _parse_records
  suffices h : ∀ acc : List (String × StockInfo), "000000" ∉ acc.map Prod.fst →
      "000000" ∉ (records.foldl (parseStep nowStr) acc).map Prod.fst by
    exact h [] (by simp)
  induction records with
  | nil => intro acc hacc; exact hacc
  | cons row rest ih =>
    intro acc hacc
    rw [List.foldl_cons]
    exact ih (parseStep nowStr acc row) (parseStep_no_zero nowStr acc row hacc)

/-- C8 amended: identifier normalization strips every non-digit character and
left-pads with zeros to AT LEAST 6 digits — exactly 6 whenever the input holds
at most 6 digits (`zfill` never truncates a longer digit string) — with
`normalize "2641" = "002641"` and `normalize "002641" = "002641"`; an empty or
digit-free input normalizes to "000000", which the record parser explicitly
filters out, so "000000" is never used as a lookup key in the parsed store. -/
theorem c8_amended :
    (∀ s : String, (s.data.filter Char.isDigit).length ≤ 6 →
      (normalizeCode s).length = 6)
    ∧ normalizeCode "2641" = "002641"
    ∧ normalizeCode "002641" = "002641"
    ∧ (∀ s : String, s.data.filter Char.isDigit = [] → normalizeCode s = "000000")
    ∧ (∀ nowStr : String, ∀ records : List SheetRecord,
        "000000" ∉ (_parse_records nowStr records).map Prod.fst) := by
  refine ⟨?_, by decide, by decide, ?_, parse_records_no_zero⟩
  · intro s h
    unfold normalizeCode zfill
    by_cases hlt : (⟨s.data.filter Char.isDigit⟩ : String).length < 6
    · rw [if_pos hlt]
      rw [strLength_append]
      have h1 : (⟨List.replicate (6 - (⟨s.data.filter Char.isDigit⟩ : String).length)
          '0'⟩ : String).length
          = 6 - (⟨s.data.filter Char.isDigit⟩ : String).length := by
        show (List.replicate _ '0').length = _
        rw [List.length_replicate]
      rw [h1]
      omega
    · rw [if_neg hlt]
      have h2 : (⟨s.data.filter Char.isDigit⟩ : String).length
          = (s.data.filter Char.isDigit).length := rfl
      omega
  · intro s h
    unfold normalizeCode
    rw [h]
    decide

/-- Witness for C8 amended at concrete identifiers and a concrete sheet. -/
theorem c8_witness :
    (normalizeCode "2641").length = 6
    ∧ normalizeCode "2641" = "002641"
    ∧ normalizeCode "002641" = "002641"
    ∧ normalizeCode "a-b" = "000000"
    ∧ "000000" ∉ (_parse_records "2025-01-01"
        [[("Code", "abc")], [("Code", "2641")]]).map Prod.fst :=
  ⟨c8_amended.1 "2641" (by decide), c8_amended.2.1, c8_amended.2.2.1,
    c8_amended.2.2.2.1 "a-b" (by decide),
    c8_amended.2.2.2.2 "2025-01-01" [[("Code", "abc")], [("Code", "2641")]]⟩

/-! ## C9: `get_all_stocks` is total at its interface -/

/-- C9: for every underlying read failure, `get_all_stocks` returns the empty
dictionary instead of propagating the exception, and the result is
observationally identical to reading an empty store. -/
theorem c9_store_failure_is_empty (nowStr e : String) :
    get_all_stocks nowStr (.error e) = []
    ∧ get_all_stocks nowStr (.ok []) = []
    ∧ get_all_stocks nowStr (.error e) = get_all_stocks nowStr (.ok []) := by
  refine ⟨rfl, by simp [get_all_stocks], by simp [get_all_stocks]⟩

/-! ## C10: price and quantity are stored transposed -/

/-- C10: for a chat command parsed with both a price and a quantity, the
dispatch in `add_stock.main` passes the parsed price as the third and the
parsed qty as the fourth POSITIONAL argument of
`add_or_update_stock(code, date=None, qty=None, price=None)`, so the appended
sheet row is `[code, date, price, qty]` — the parsed price lands in the Qty
column (index 2) and the parsed qty in the Price column (index 3),
transposed. -/
theorem c10_price_qty_transposed (nowStr : String) (sheet : List (List String))
    (p : ParsedCmd) (hp : p.price ≠ "") (hq : p.qty ≠ "")
    (hfind : findCellRow sheet (normalizeCode p.code) = none) :
    (addStockDispatch nowStr sheet p).1
      = sheet ++ [[normalizeCode p.code,
          (if p.date = "" then nowStr else p.date), p.price, p.qty]]
    ∧ (addStockDispatch nowStr sheet p).2 = "Added" := by
  constructor <;> simp [addStockDispatch, add_or_update_stock, hfind, hp, hq]

/-- Witness for C10: the command "2641 2025-01-10 10.5 200" (price 10.5,
qty 200) appends the row ["002641", "2025-01-10", "10.5", "200"]: the Qty
column holds the parsed price "10.5" and the Price column the parsed qty
"200". -/
theorem c10_witness :
    (addStockDispatch "2025-01-01" [] ⟨"add", "2641", "2025-01-10", "10.5", "200"⟩).1
      = [["002641", "2025-01-10", "10.5", "200"]]
    ∧ (addStockDispatch "2025-01-01" [] ⟨"add", "2641", "2025-01-10", "10.5", "200"⟩).2
      = "Added" := by
  have h := c10_price_qty_transposed "2025-01-01" []
    ⟨"add", "2641", "2025-01-10", "10.5", "200"⟩ (by decide) (by decide) rfl
  exact ⟨h.1.trans (by decide), h.2⟩
